import Mathlib

/-!
Verification of the walk-in refrigeration controller simulator.

This file shallowly embeds the core of the repository — the SCK binary
frame codec (src/refrigeration/sck.py), and the dual-channel command
dispatcher / thermostat control loop (src/refrigeration/controller.py) —
and proves the specified properties about the embedding.

Modelling conventions:
* Python `bytes` values are `List Nat` whose elements are below 256 where
  it matters; multi-byte integers use explicit little-endian byte lists.
* Python `float` values are modelled as rationals (`Rat`); the claims under
  study depend only on ordered-field comparisons, not on rounding.
* Python exceptions that the source code does not catch are modelled with
  `Except String`; a `.error` result is an uncaught exception escaping
  `step()`, while a caught exception (`except SCKError`) is matched away.
* Python `str` values carried on the wire are `List Char`.
-/

namespace Refrigeration

/-! ## Frame codec (src/refrigeration/sck.py) -/

def STX : Nat := 0x02

def ETX : Nat := 0x03

def DEFAULT_VERSION : Nat := 0x0420

structure SCKFrame where
  version : Nat
  tid : Nat
  frame_type : Char
  command : Nat
  payload : List Nat
deriving DecidableEq

/-- Command codes from `class SCKCommand`. -/
def MONITOR_SET_CONFIG : Nat := 0x0001

def MONITOR_GET_CONFIG : Nat := 0x0002

def MONITOR_GET_STATUS : Nat := 0x0003

def IO_SET_SENSOR : Nat := 0x0101

def IO_SET_INPUT : Nat := 0x0102

def IO_GET_IO : Nat := 0x0103

/-- One inner iteration of `crc16_ibm`: shift right, conditionally xor the
reflected polynomial 0xA001. -/
def crc16_update_bit (crc : Nat) : Nat :=
  if crc &&& 1 = 1 then (crc >>> 1) ^^^ 0xA001 else crc >>> 1

/-- `crc ^= byte` followed by eight bit rounds. -/
def crc16_update_byte (crc b : Nat) : Nat :=
  crc16_update_bit^[8] (crc ^^^ b)

/-- `crc16_ibm` from sck.py: init 0xFFFF, reflected polynomial 0xA001,
bit at a time, masked (not inverted) result. -/
def crc16_ibm (data : List Nat) : Nat :=
  (data.foldl crc16_update_byte 0xFFFF) &&& 0xFFFF

/-- `n.to_bytes(2, "little")` for `n` already checked to fit 16 bits. -/
def le16 (n : Nat) : List Nat :=
  [n % 256, n / 256 % 256]

/-- `int.from_bytes(bs, "little")`. -/
def fromLE (bs : List Nat) : Nat :=
  bs.foldr (fun b acc => b + 256 * acc) 0

/-- `packet[i]` (all in-range uses are guarded by length checks in the source). -/
def byteAt (l : List Nat) (i : Nat) : Nat :=
  l.getD i 0

/-- `packet[a:b]` for `a ≤ b` (the only shape the source uses). -/
def pySlice (l : List Nat) (a b : Nat) : List Nat :=
  (l.drop a).take (b - a)

/-- `encode_frame` from sck.py.  The bounds checks mirror the source; the crc
is computed over `packet[3:5] + packet[6:]`, i.e. the length bytes followed
by type, command and payload — version and tid bytes are excluded. -/
def encode_frame (f : SCKFrame) : Except String (List Nat) :=
  if ¬ (f.frame_type = 'C' ∨ f.frame_type = 'S') then
    .error "Unsupported frame type"
  else if ¬ f.version ≤ 0xFFFF then .error "Version must fit in 2 bytes"
  else if ¬ f.tid ≤ 0xFF then .error "TID must fit in 1 byte"
  else if ¬ f.command ≤ 0xFFFF then .error "Command must fit in 2 bytes"
  else
    let length := 3 + f.payload.length
    if ¬ (1 ≤ length ∧ length ≤ 1023) then
      .error "Length must be in range 1..1023"
    else
      let body : List Nat :=
        STX :: (le16 f.version ++ le16 length ++
          [f.tid, f.frame_type.toNat] ++ le16 f.command ++ f.payload)
      let crc_input := pySlice body 3 5 ++ body.drop 6
      .ok (body ++ le16 (crc16_ibm crc_input) ++ [ETX])

/-- `decode_frame` from sck.py, with the same checks in the same order. -/
def decode_frame (packet : List Nat) : Except String SCKFrame :=
  if packet.length < 11 then .error "Frame too short"
  else if byteAt packet 0 ≠ STX then .error "Missing STX"
  else if byteAt packet (packet.length - 1) ≠ ETX then .error "Missing ETX"
  else
    let version := fromLE (pySlice packet 1 3)
    let length := fromLE (pySlice packet 3 5)
    let tid := byteAt packet 5
    let frame_type := Char.ofNat (byteAt packet 6)
    let command := fromLE (pySlice packet 7 9)
    -- Python computes `payload_length = length - 3` as a possibly negative
    -- int and rejects it; over Nat this is the guard `length < 3`.
    if length < 3 then .error "Invalid LENGTH"
    else
      let payload_end := 9 + (length - 3)
      let crc_end := payload_end + 2
      if crc_end + 1 ≠ packet.length then .error "Frame length mismatch"
      else
        let payload := pySlice packet 9 payload_end
        let crc_actual := fromLE (pySlice packet payload_end crc_end)
        let crc_input := pySlice packet 3 5 ++ pySlice packet 6 payload_end
        if crc_actual ≠ crc16_ibm crc_input then .error "CRC mismatch"
        else if ¬ (frame_type = 'C' ∨ frame_type = 'S') then
          .error "Invalid frame type"
        else .ok ⟨version, tid, frame_type, command, payload⟩

/-- The crc input of a frame: length bytes, then type, command and payload. -/
def crcInputOf (f : SCKFrame) : List Nat :=
  le16 (3 + f.payload.length) ++ [f.frame_type.toNat] ++ le16 f.command ++ f.payload

/-- The exact byte string `encode_frame` produces on success. -/
def encodedPacket (f : SCKFrame) : List Nat :=
  (STX :: (le16 f.version ++ le16 (3 + f.payload.length) ++
    [f.tid, f.frame_type.toNat] ++ le16 f.command ++ f.payload)) ++
    le16 (crc16_ibm (crcInputOf f)) ++ [ETX]

/-! ## Python string model

Python `str` values carried over the line transports are modelled as
`List Char`.  The helpers below translate the string operations the source
uses (`startswith`, `strip`, `split(sep, 1)`, `split()`, `in`).  Whitespace
is the four ASCII whitespace characters that can survive a line transport. -/

abbrev PyStr := List Char

def pyIsSpace (c : Char) : Bool :=
  c = ' ' || c = '\t' || c = '\n' || c = '\r'

/-- `s.startswith(p)`. -/
def pyStartsWith : PyStr → PyStr → Bool
  | _, [] => true
  | [], _ :: _ => false
  | c :: s, d :: p => c = d && pyStartsWith s p

/-- `s.strip()`. -/
def pyStrip (s : PyStr) : PyStr :=
  ((s.dropWhile pyIsSpace).reverse.dropWhile pyIsSpace).reverse

/-- `s.split(sep, 1)` as the pair (before, after) at the first occurrence of
`sep`; every use in the source is guarded so that `sep` occurs. -/
def splitOnce : PyStr → Char → PyStr × PyStr
  | [], _ => ([], [])
  | c :: rest, sep =>
    if c = sep then ([], rest)
    else
      let p := splitOnce rest sep
      (c :: p.1, p.2)

def splitWsAux : PyStr → PyStr → List PyStr
  | [], acc => if acc = [] then [] else [acc.reverse]
  | c :: rest, acc =>
    if pyIsSpace c then
      if acc = [] then splitWsAux rest []
      else acc.reverse :: splitWsAux rest []
    else splitWsAux rest (c :: acc)

/-- `s.split()`: split on whitespace runs, dropping empty tokens. -/
def pySplitWs (s : PyStr) : List PyStr :=
  splitWsAux s []

/-! ### Numeric text conversions

`int(s)` and `float(s)` are modelled on the decimal forms the protocol
carries (optional sign, digits, an optional fractional part for floats).
Exotic Python literal forms (underscores, exponents, inf/nan, 0x ints) are
out of the modelled fragment; none of the claims depends on them. -/

def digitsVal (cs : PyStr) : Nat :=
  cs.foldl (fun a c => 10 * a + (c.toNat - 48)) 0

def allDigits (cs : PyStr) : Bool :=
  cs.all Char.isDigit

/-- `int(s)`: `none` models an uncaught `ValueError`. -/
def parseInt? (s : PyStr) : Option Int :=
  match pyStrip s with
  | '+' :: ds => if !ds.isEmpty && allDigits ds then some (digitsVal ds) else none
  | '-' :: ds => if !ds.isEmpty && allDigits ds then some (-(digitsVal ds : Int)) else none
  | ds => if !ds.isEmpty && allDigits ds then some (digitsVal ds) else none

/-- An unsigned decimal with an optional single point, as a rational. -/
def parseDecimal? (ds : PyStr) : Option Rat :=
  if ds.contains '.' then
    let whole := (splitOnce ds '.').1
    let frac := (splitOnce ds '.').2
    if allDigits whole && allDigits frac && !(whole.isEmpty && frac.isEmpty) then
      some ((digitsVal whole : Rat) + (digitsVal frac : Rat) / ((10 : Rat) ^ frac.length))
    else none
  else if !ds.isEmpty && allDigits ds then some (digitsVal ds : Rat)
  else none

/-- `float(s)`: `none` models an uncaught `ValueError`.  Python floats are
modelled as rationals; the claims depend only on ordered-field behaviour. -/
def parseRat? (s : PyStr) : Option Rat :=
  match pyStrip s with
  | '+' :: ds => parseDecimal? ds
  | '-' :: ds => (parseDecimal? ds).map Neg.neg
  | ds => parseDecimal? ds

/-! ### Text renderings

`str(float)` and `str(int)` are modelled by a canonical decimal/rational
rendering.  The claims under study depend only on the renderings being
deterministic functions of the value, not on the exact digit strings. -/

def renderNat (n : Nat) : PyStr :=
  Nat.toDigits 10 n

def renderInt (i : Int) : PyStr :=
  if i < 0 then '-' :: renderNat i.natAbs else renderNat i.natAbs

def renderRat (q : Rat) : PyStr :=
  if q.den = 1 then renderInt q.num
  else renderInt q.num ++ '/' :: renderNat q.den

def formatBool (b : Bool) : PyStr :=
  if b then ['1'] else ['0']

/-! ### UTF-8 (`str.encode` / `bytes.decode(errors="ignore")`) -/

def utf8EncodeChar (c : Char) : List Nat :=
  let n := c.toNat
  if n < 0x80 then [n]
  else if n < 0x800 then [0xC0 ||| (n >>> 6), 0x80 ||| (n &&& 0x3F)]
  else if n < 0x10000 then
    [0xE0 ||| (n >>> 12), 0x80 ||| ((n >>> 6) &&& 0x3F), 0x80 ||| (n &&& 0x3F)]
  else
    [0xF0 ||| (n >>> 18), 0x80 ||| ((n >>> 12) &&& 0x3F),
      0x80 ||| ((n >>> 6) &&& 0x3F), 0x80 ||| (n &&& 0x3F)]

def utf8Encode (s : PyStr) : List Nat :=
  (s.map utf8EncodeChar).flatten

def utf8Cont (b : Nat) : Bool :=
  0x80 ≤ b && b ≤ 0xBF

/-- Recursion on fuel; each step consumes at least one byte, so fuel equal
to the byte count (as `utf8Decode` passes) never runs out early. -/
def utf8DecodeAux : Nat → List Nat → PyStr
  | 0, _ => []
  | fuel + 1, l =>
  match l with
  | [] => []
  | b :: rest =>
    if b < 0x80 then Char.ofNat b :: utf8DecodeAux fuel rest
    else if 0xC2 ≤ b && b ≤ 0xDF then
      match rest with
      | [] => []
      | b2 :: rest2 =>
        if utf8Cont b2 then
          Char.ofNat (((b &&& 0x1F) <<< 6) ||| (b2 &&& 0x3F)) :: utf8DecodeAux fuel rest2
        else utf8DecodeAux fuel rest
    else if 0xE0 ≤ b && b ≤ 0xEF then
      match rest with
      | b2 :: b3 :: rest3 =>
        if (if b = 0xE0 then 0xA0 ≤ b2 && b2 ≤ 0xBF
            else if b = 0xED then 0x80 ≤ b2 && b2 ≤ 0x9F
            else utf8Cont b2) && utf8Cont b3 then
          Char.ofNat (((b &&& 0x0F) <<< 12) ||| ((b2 &&& 0x3F) <<< 6) ||| (b3 &&& 0x3F))
            :: utf8DecodeAux fuel rest3
        else utf8DecodeAux fuel rest
      | _ => []
    else if 0xF0 ≤ b && b ≤ 0xF4 then
      match rest with
      | b2 :: b3 :: b4 :: rest4 =>
        if (if b = 0xF0 then 0x90 ≤ b2 && b2 ≤ 0xBF
            else if b = 0xF4 then 0x80 ≤ b2 && b2 ≤ 0x8F
            else utf8Cont b2) && utf8Cont b3 && utf8Cont b4 then
          Char.ofNat (((b &&& 0x07) <<< 18) ||| ((b2 &&& 0x3F) <<< 12) |||
              ((b3 &&& 0x3F) <<< 6) ||| (b4 &&& 0x3F)) :: utf8DecodeAux fuel rest4
        else utf8DecodeAux fuel rest
      | _ => []
    else utf8DecodeAux fuel rest

/-- `bytes.decode("utf-8", errors="ignore")`: well-formed sequences decode,
ill-formed lead bytes are skipped. -/
def utf8Decode (l : List Nat) : PyStr :=
  utf8DecodeAux l.length l

/-! ### Hex line form (`format_hex_line` / `parse_hex_line`) -/

def hexDigitChar (n : Nat) : Char :=
  if n < 10 then Char.ofNat (48 + n) else Char.ofNat (55 + n)

/-- A byte as two uppercase hex digits (Python `f"{byte:02X}"`). -/
def toHex2 (b : Nat) : PyStr :=
  [hexDigitChar (b / 16 % 16), hexDigitChar (b % 16)]

def hexDigitVal (c : Char) : Option Nat :=
  if '0' ≤ c ∧ c ≤ '9' then some (c.toNat - 48)
  else if 'a' ≤ c ∧ c ≤ 'f' then some (c.toNat - 87)
  else if 'A' ≤ c ∧ c ≤ 'F' then some (c.toNat - 55)
  else none

def parseHexAux : PyStr → Nat → Option Nat
  | [], acc => some acc
  | c :: r, acc =>
    match hexDigitVal c with
    | none => none
    | some d => parseHexAux r (16 * acc + d)

/-- `int(token, 16)` on the plain hex-digit tokens the wire format uses;
`none` is the `ValueError` that `parse_hex_line` catches. -/
def parseHexToken : PyStr → Option Nat
  | [] => none
  | s => parseHexAux s 0

/-- `bytes(int(token, 16) for token in tokens)`: both a malformed token and a
value above 255 raise `ValueError`, which `parse_hex_line` turns into
`SCKError`. -/
def hexBytes? : List PyStr → Option (List Nat)
  | [] => some []
  | t :: ts =>
    match (parseHexToken t).bind fun v => if v ≤ 255 then some v else none with
    | none => none
    | some v => (hexBytes? ts).map (v :: ·)

/-- `format_hex_line` from sck.py. -/
def format_hex_line (packet : List Nat) : PyStr :=
  "SCK ".toList ++ List.intercalate [' '] (packet.map toHex2)

/-- `parse_hex_line` from sck.py: `ok none` when the line does not carry the
frame marker, `error` for the `SCKError`s it raises. -/
def parse_hex_line (line : PyStr) : Except String (Option SCKFrame) :=
  let normalized := pyStrip line
  if ¬ pyStartsWith normalized "SCK ".toList then .ok none
  else
    let raw := pyStrip (normalized.drop 4)
    if raw = [] then .error "Missing SCK payload"
    else
      match hexBytes? (pySplitWs raw) with
      | none => .error "Invalid hex payload"
      | some packet => (decode_frame packet).map some

/-- `build_status_line` from sck.py: a Status frame with the caller's command
and tid, always at `DEFAULT_VERSION`. -/
def build_status_line (command : Nat) (payloadText : PyStr) (tid : Nat) :
    Except String PyStr :=
  (encode_frame ⟨DEFAULT_VERSION, tid, 'S', command, utf8Encode payloadText⟩).map
    format_hex_line

/-- `build_command_line` from sck.py (used by peers/tests). -/
def build_command_line (command : Nat) (payloadText : PyStr) (tid : Nat)
    (version : Nat) : Except String PyStr :=
  (encode_frame ⟨version, tid, 'C', command, utf8Encode payloadText⟩).map
    format_hex_line

/-! ## Controller data model (src/refrigeration/config.py, controller.py) -/

structure ControlConfig where
  target_temp_c : Rat
  hysteresis_c : Rat
  compressor_min_off_s : Int
  defrost_interval_s : Int
  defrost_duration_s : Int
deriving DecidableEq

def defaultConfig : ControlConfig :=
  ⟨2, 1, 120, 6 * 60 * 60, 20 * 60⟩

structure WalkInDimensionsFt where
  length : Rat
  width : Rat
  height : Rat
deriving DecidableEq

def defaultDimensions : WalkInDimensionsFt :=
  ⟨10, 10, 10⟩

def volume_ft3 (d : WalkInDimensionsFt) : Rat :=
  d.length * d.width * d.height

structure IOState where
  air_temp_c : Rat
  door_open : Bool
  power_ok : Bool
  motion_detected : Bool
  panic_button_pressed : Bool
  compressor_on : Bool
  panic_alarm_on : Bool
deriving DecidableEq

def defaultIOState : IOState :=
  ⟨8, false, true, false, false, false, false⟩

/-- The controller-owned state of `RefrigerationController`: config,
dimensions, live IO state, the compressor off-timestamp, and the
last-published-status cache. -/
structure ControllerState where
  config : ControlConfig
  dimensions : WalkInDimensionsFt
  io : IOState
  last_compressor_off_s : Rat
  lastPublishedStatus : Option PyStr
deriving DecidableEq

/-- `RefrigerationController.__init__`: default IO state, `time.time()` as
the initial off-timestamp, empty status cache. -/
def initController (cfg : ControlConfig) (dims : WalkInDimensionsFt)
    (t0 : Rat) : ControllerState :=
  ⟨cfg, dims, defaultIOState, t0, none⟩

/-! ### Status formatting

`asdict` flattening (`_status_payload`, `_format_key_values`,
`_flatten_payload`, `_format_value`) specialised to the three payload shapes
the source builds, in the source's field order. -/

def formatKeyValues (kvs : List (PyStr × PyStr)) : PyStr :=
  List.intercalate ", ".toList (kvs.map fun kv => kv.1 ++ '=' :: kv.2)

def configKVs (c : ControlConfig) : List (PyStr × PyStr) :=
  [("target_temp_c".toList, renderRat c.target_temp_c),
   ("hysteresis_c".toList, renderRat c.hysteresis_c),
   ("compressor_min_off_s".toList, renderInt c.compressor_min_off_s),
   ("defrost_interval_s".toList, renderInt c.defrost_interval_s),
   ("defrost_duration_s".toList, renderInt c.defrost_duration_s)]

def ioKVs (io : IOState) : List (PyStr × PyStr) :=
  [("air_temp_c".toList, renderRat io.air_temp_c),
   ("door_open".toList, formatBool io.door_open),
   ("power_ok".toList, formatBool io.power_ok),
   ("motion_detected".toList, formatBool io.motion_detected),
   ("panic_button_pressed".toList, formatBool io.panic_button_pressed),
   ("compressor_on".toList, formatBool io.compressor_on),
   ("panic_alarm_on".toList, formatBool io.panic_alarm_on)]

/-- `_status_payload` flattened with dotted keys. -/
def statusKVs (s : ControllerState) : List (PyStr × PyStr) :=
  [("dimensions_ft.length".toList, renderRat s.dimensions.length),
   ("dimensions_ft.width".toList, renderRat s.dimensions.width),
   ("dimensions_ft.height".toList, renderRat s.dimensions.height),
   ("volume_ft3".toList, renderRat (volume_ft3 s.dimensions))] ++
  (configKVs s.config).map (fun kv => ("config.".toList ++ kv.1, kv.2)) ++
  (ioKVs s.io).map (fun kv => ("io.".toList ++ kv.1, kv.2))

/-- The full status line, as built in `_publish_status` and `GET STATUS`. -/
def statusLineOf (s : ControllerState) : PyStr :=
  "STATUS ".toList ++ formatKeyValues (statusKVs s)

/-! ### Command dispatch (controller.py) -/

/-- `_parse_sck_frame`: `parse_hex_line` with `SCKError` caught to `None`. -/
def parseSckFrame (line : PyStr) : Option SCKFrame :=
  match parse_hex_line line with
  | .ok r => r
  | .error _ => none

/-- `_is_protocol_response`. -/
def isProtocolResponse (line : PyStr) : Bool :=
  pyStartsWith line "ACK ".toList || pyStartsWith line "ERR ".toList ||
  pyStartsWith line "STATUS ".toList || pyStartsWith line "CONFIG ".toList ||
  pyStartsWith line "IO ".toList

/-- The key test of the `SET` handlers.  The source uses
`hasattr(self.config, key)`, which is true for the five declared dataclass
fields but also for the non-field attributes every Python object carries
(`__init__`, `__class__`, `__doc__`, ...); on those the source's
`type(current)(raw_value)` / `setattr` may raise `TypeError` or touch
non-field state.  Following spec §9 the embedding enumerates the declared
fields only; no theorem below asserts what a `SET` line whose key is not a
declared field does, so this narrowing is not load-bearing. -/
def configHasKey (key : PyStr) : Bool :=
  key = "target_temp_c".toList || key = "hysteresis_c".toList ||
  key = "compressor_min_off_s".toList || key = "defrost_interval_s".toList ||
  key = "defrost_duration_s".toList

/-- `typed_value = type(current)(raw_value); setattr(...)` for a key that
passed `configHasKey`, returning the new config and the rendered
`typed_value`; `.error` is the uncaught `ValueError` of a failed coercion.
Float fields coerce with `float(...)`, int fields with `int(...)`. -/
def setConfigField (c : ControlConfig) (key raw : PyStr) :
    Except String (ControlConfig × PyStr) :=
  if key = "target_temp_c".toList then
    match parseRat? raw with
    | none => .error "ValueError: could not convert string to float"
    | some v => .ok ({c with target_temp_c := v}, renderRat v)
  else if key = "hysteresis_c".toList then
    match parseRat? raw with
    | none => .error "ValueError: could not convert string to float"
    | some v => .ok ({c with hysteresis_c := v}, renderRat v)
  else if key = "compressor_min_off_s".toList then
    match parseInt? raw with
    | none => .error "ValueError: invalid literal for int"
    | some v => .ok ({c with compressor_min_off_s := v}, renderInt v)
  else if key = "defrost_interval_s".toList then
    match parseInt? raw with
    | none => .error "ValueError: invalid literal for int"
    | some v => .ok ({c with defrost_interval_s := v}, renderInt v)
  else
    match parseInt? raw with
    | none => .error "ValueError: invalid literal for int"
    | some v => .ok ({c with defrost_duration_s := v}, renderInt v)

/-- The recognised `SET_INPUT` keys. -/
def isInputKey (key : PyStr) : Bool :=
  key = "door_open".toList || key = "power_ok".toList ||
  key = "motion_detected".toList || key = "panic_button_pressed".toList

def setInputField (io : IOState) (key : PyStr) (v : Bool) : IOState :=
  if key = "door_open".toList then {io with door_open := v}
  else if key = "power_ok".toList then {io with power_ok := v}
  else if key = "motion_detected".toList then {io with motion_detected := v}
  else {io with panic_button_pressed := v}

/-- `_handle_monitor_sck_command`.  Every reply goes through
`build_status_line`, whose encode failure (reply payload over 1020 bytes)
propagates, as does a failed config-value coercion. -/
def handleMonitorSck (s : ControllerState) (command : Nat) (payload : List Nat)
    (tid : Nat) : Except String (ControllerState × List PyStr) :=
  let payloadText := utf8Decode payload
  if command = MONITOR_SET_CONFIG ∧ payloadText.contains '=' then
    let key := (splitOnce payloadText '=').1
    let raw := (splitOnce payloadText '=').2
    if configHasKey key then
      match setConfigField s.config key raw with
      | .error e => .error e
      | .ok (c2, rendered) =>
        match build_status_line command ("ACK ".toList ++ key ++ '=' :: rendered) tid with
        | .error e => .error e
        | .ok reply => .ok ({s with config := c2}, [reply])
    else
      (build_status_line command ("ERR unknown_config:".toList ++ key) tid).map
        fun reply => (s, [reply])
  else if command = MONITOR_GET_CONFIG then
    (build_status_line command
        ("CONFIG ".toList ++ formatKeyValues (configKVs s.config)) tid).map
      fun reply => (s, [reply])
  else if command = MONITOR_GET_STATUS then
    (build_status_line command
        ("STATUS ".toList ++ formatKeyValues (statusKVs s)) tid).map
      fun reply => (s, [reply])
  else
    (build_status_line command
        ("ERR unknown_command:".toList ++
          (if payloadText = [] then renderNat command else payloadText)) tid).map
      fun reply => (s, [reply])

/-- `_handle_io_sck_command`. -/
def handleIoSck (s : ControllerState) (command : Nat) (payload : List Nat)
    (tid : Nat) : Except String (ControllerState × List PyStr) :=
  let payloadText := utf8Decode payload
  if command = IO_SET_SENSOR ∧ payloadText.contains '=' then
    let key := (splitOnce payloadText '=').1
    let raw := (splitOnce payloadText '=').2
    if key = "air_temp_c".toList then
      match parseRat? raw with
      | none => .error "ValueError: could not convert string to float"
      | some v =>
        match build_status_line command
            ("ACK air_temp_c=".toList ++ renderRat v) tid with
        | .error e => .error e
        | .ok reply => .ok ({s with io := {s.io with air_temp_c := v}}, [reply])
    else
      (build_status_line command ("ERR unknown_sensor:".toList ++ key) tid).map
        fun reply => (s, [reply])
  else if command = IO_SET_INPUT ∧ payloadText.contains '=' then
    let key := (splitOnce payloadText '=').1
    let raw := (splitOnce payloadText '=').2
    if isInputKey key then
      match parseInt? raw with
      | none => .error "ValueError: invalid literal for int"
      | some v =>
        match build_status_line command
            ("ACK ".toList ++ key ++ '=' :: formatBool (v ≠ 0)) tid with
        | .error e => .error e
        | .ok reply => .ok ({s with io := setInputField s.io key (v ≠ 0)}, [reply])
    else
      (build_status_line command ("ERR unknown_input:".toList ++ key) tid).map
        fun reply => (s, [reply])
  else if command = IO_GET_IO then
    (build_status_line command
        ("IO ".toList ++ formatKeyValues (ioKVs s.io)) tid).map
      fun reply => (s, [reply])
  else
    (build_status_line command
        ("ERR unknown_command:".toList ++
          (if payloadText = [] then renderNat command else payloadText)) tid).map
      fun reply => (s, [reply])

/-- The text-verb part of `_process_monitor_uart` (after the frame and
loopback checks fell through). -/
def dispatchMonitorText (s : ControllerState) (line : PyStr) :
    Except String (ControllerState × List PyStr) :=
  if pyStartsWith line "SET ".toList ∧ line.contains '=' then
    let kv := (splitOnce line ' ').2
    let key := (splitOnce kv '=').1
    let raw := (splitOnce kv '=').2
    if configHasKey key then
      match setConfigField s.config key raw with
      | .error e => .error e
      | .ok (c2, rendered) =>
        .ok ({s with config := c2}, ["ACK ".toList ++ key ++ '=' :: rendered])
    else .ok (s, ["ERR unknown_config:".toList ++ key])
  else if line = "GET CONFIG".toList then
    .ok (s, ["CONFIG ".toList ++ formatKeyValues (configKVs s.config)])
  else if line = "GET STATUS".toList then
    .ok (s, ["STATUS ".toList ++ formatKeyValues (statusKVs s)])
  else .ok (s, ["ERR unknown_command:".toList ++ line])

/-- The text-verb part of `_process_io_uart`. -/
def dispatchIoText (s : ControllerState) (line : PyStr) :
    Except String (ControllerState × List PyStr) :=
  if pyStartsWith line "SET_SENSOR ".toList ∧ line.contains '=' then
    let kv := (splitOnce line ' ').2
    let key := (splitOnce kv '=').1
    let raw := (splitOnce kv '=').2
    if key = "air_temp_c".toList then
      match parseRat? raw with
      | none => .error "ValueError: could not convert string to float"
      | some v =>
        .ok ({s with io := {s.io with air_temp_c := v}},
          ["ACK air_temp_c=".toList ++ renderRat v])
    else .ok (s, ["ERR unknown_sensor:".toList ++ key])
  else if pyStartsWith line "SET_INPUT ".toList ∧ line.contains '=' then
    let kv := (splitOnce line ' ').2
    let key := (splitOnce kv '=').1
    let raw := (splitOnce kv '=').2
    if isInputKey key then
      match parseInt? raw with
      | none => .error "ValueError: invalid literal for int"
      | some v =>
        .ok ({s with io := setInputField s.io key (v ≠ 0)},
          ["ACK ".toList ++ key ++ '=' :: formatBool (v ≠ 0)])
    else .ok (s, ["ERR unknown_input:".toList ++ key])
  else if line = "GET IO".toList then
    .ok (s, ["IO ".toList ++ formatKeyValues (ioKVs s.io)])
  else .ok (s, ["ERR unknown_command:".toList ++ line])

/-- `_process_monitor_uart` for a read line (`none` models no queued line,
and Python's `if not line` also drops an empty one).  The returned list is
what was written to the monitor uart. -/
def processMonitorUart (s : ControllerState) (line : Option PyStr) :
    Except String (ControllerState × List PyStr) :=
  match line with
  | none => .ok (s, [])
  | some l =>
    if l = [] then .ok (s, [])
    else
      match parseSckFrame l with
      | some f =>
        if f.frame_type = 'S' then .ok (s, [])
        else handleMonitorSck s f.command f.payload f.tid
      | none =>
        if isProtocolResponse l then .ok (s, [])
        else dispatchMonitorText s l

/-- `_process_io_uart`. -/
def processIoUart (s : ControllerState) (line : Option PyStr) :
    Except String (ControllerState × List PyStr) :=
  match line with
  | none => .ok (s, [])
  | some l =>
    if l = [] then .ok (s, [])
    else
      match parseSckFrame l with
      | some f =>
        if f.frame_type = 'S' then .ok (s, [])
        else handleIoSck s f.command f.payload f.tid
      | none =>
        if isProtocolResponse l then .ok (s, [])
        else dispatchIoText s l

/-! ### Control loop and status publication -/

/-- `_set_compressor`: record the off-timestamp only on an on→off
transition. -/
def setCompressor (io : IOState) (lastOff : Rat) (state : Bool) (now : Rat) :
    IOState × Rat :=
  ({io with compressor_on := state},
    if state = false ∧ io.compressor_on then now else lastOff)

/-- `_run_control_logic`, as a function of config, IO state, the stored
off-timestamp and the current time; returns the new IO state and
off-timestamp. -/
def runControlLogic (cfg : ControlConfig) (io0 : IOState) (lastOff now : Rat) :
    IOState × Rat :=
  let io := {io0 with panic_alarm_on := io0.panic_button_pressed}
  if io.power_ok = false then setCompressor io lastOff false now
  else
    let upper := cfg.target_temp_c + cfg.hysteresis_c
    let lower := cfg.target_temp_c - cfg.hysteresis_c
    if upper ≤ io.air_temp_c then
      if (cfg.compressor_min_off_s : Rat) ≤ now - lastOff then
        ({io with compressor_on := true}, lastOff)
      else (io, lastOff)
    else if io.air_temp_c ≤ lower then setCompressor io lastOff false now
    else (io, lastOff)

/-- `_publish_status`: compare against the cache, write to the monitor uart
and update the cache only on change. -/
def publishStatus (s : ControllerState) : ControllerState × List PyStr :=
  let line := statusLineOf s
  if s.lastPublishedStatus = some line then (s, [])
  else ({s with lastPublishedStatus := some line}, [line])

/-- `step()`: process at most one line per channel, run the control logic,
publish status.  Returns the new state, the lines written on the monitor
channel and the lines written on the IO channel; `.error` is an uncaught
exception escaping `step()`. -/
def step (s : ControllerState) (monitorLine ioLine : Option PyStr) (now : Rat) :
    Except String (ControllerState × List PyStr × List PyStr) :=
  match processMonitorUart s monitorLine with
  | .error e => .error e
  | .ok (s1, mOut) =>
    match processIoUart s1 ioLine with
    | .error e => .error e
    | .ok (s2, iOut) =>
      let r := runControlLogic s2.config s2.io s2.last_compressor_off_s now
      let s3 := {s2 with io := r.1, last_compressor_off_s := r.2}
      let p := publishStatus s3
      .ok (p.1, mOut ++ p.2, iOut)

/-- What spec §4.3 step 2 promises about a power-loss tick, as a predicate on
the tick's result: compressor forced off, off-timestamp recorded only on an
on→off transition, panic mirror still applied, and nothing else touched (in
particular the result does not depend on `air_temp_c` or the thresholds:
no thermostat evaluation). -/
def powerLossSpec (io : IOState) (lastOff now : Rat) (r : IOState × Rat) : Prop :=
  r.1 = {io with panic_alarm_on := io.panic_button_pressed, compressor_on := false} ∧
  r.2 = (if io.compressor_on then now else lastOff)

/-- What spec §4.3 step 3 promises about a powered tick, reading the spec's
clauses in their written order (first match wins). -/
def thermostatSpec (cfg : ControlConfig) (io : IOState) (lastOff now : Rat)
    (r : IOState × Rat) : Prop :=
  let upper := cfg.target_temp_c + cfg.hysteresis_c
  let lower := cfg.target_temp_c - cfg.hysteresis_c
  let elapsed := (cfg.compressor_min_off_s : Rat) ≤ now - lastOff
  (upper ≤ io.air_temp_c ∧ elapsed → r.1.compressor_on = true ∧ r.2 = lastOff) ∧
  (upper ≤ io.air_temp_c ∧ ¬ elapsed →
    r.1.compressor_on = io.compressor_on ∧ r.2 = lastOff) ∧
  (¬ upper ≤ io.air_temp_c ∧ io.air_temp_c ≤ lower →
    r.1.compressor_on = false ∧ r.2 = (if io.compressor_on then now else lastOff)) ∧
  (¬ upper ≤ io.air_temp_c ∧ ¬ io.air_temp_c ≤ lower →
    r.1.compressor_on = io.compressor_on ∧ r.2 = lastOff) ∧
  r.1 = {io with panic_alarm_on := io.panic_button_pressed,
                 compressor_on := r.1.compressor_on} ∧
  (io.compressor_on = false ∧ r.1.compressor_on = true →
    upper ≤ io.air_temp_c ∧ elapsed) ∧
  (io.compressor_on = true ∧ r.1.compressor_on = false →
    ¬ upper ≤ io.air_temp_c ∧ io.air_temp_c ≤ lower)

/-- The state after `_run_control_logic` inside a `step()`. -/
def postControl (s : ControllerState) (now : Rat) : ControllerState :=
  {s with io := (runControlLogic s.config s.io s.last_compressor_off_s now).1,
          last_compressor_off_s :=
            (runControlLogic s.config s.io s.last_compressor_off_s now).2}

/-- A concrete Command frame line with version 0, tid 5. -/
def c1CommandLine : PyStr :=
  format_hex_line (encodedPacket ⟨0, 5, 'C', 0x9999, [120]⟩)

/-- The three exception messages that can escape `step()`. -/
def floatErr : String := "ValueError: could not convert string to float"

def intErr : String := "ValueError: invalid literal for int"

def lenErr : String := "Length must be in range 1..1023"

/-- A monitor-channel line that asks the controller to set a value: plain
text `SET key=value`, or a framed MONITOR_SET_CONFIG command whose decoded
payload carries an equals sign.  These are the monitor-channel lines on
which the source coerces a value into an attribute. -/
def monitorSetForm (line : PyStr) : Prop :=
  (pyStartsWith line "SET ".toList && line.contains '=') = true ∨
  ∃ f, parseSckFrame line = some f ∧ f.frame_type = 'C' ∧
    f.command = MONITOR_SET_CONFIG ∧ ((utf8Decode f.payload).contains '=') = true

/-- An IO-channel line that asks the controller to set a value: plain text
`SET_SENSOR key=value` or `SET_INPUT key=value`, or a framed IO_SET_SENSOR /
IO_SET_INPUT command whose decoded payload carries an equals sign. -/
def ioSetForm (line : PyStr) : Prop :=
  (pyStartsWith line "SET_SENSOR ".toList && line.contains '=') = true ∨
  (pyStartsWith line "SET_INPUT ".toList && line.contains '=') = true ∨
  ∃ f, parseSckFrame line = some f ∧ f.frame_type = 'C' ∧
    (f.command = IO_SET_SENSOR ∨ f.command = IO_SET_INPUT) ∧
    ((utf8Decode f.payload).contains '=') = true

/-- The two crc bytes of an encoded packet (positions `len-3`, `len-2`). -/
def crcFieldOf (packet : List Nat) : List Nat :=
  pySlice packet (packet.length - 3) (packet.length - 1)


/-! ### Codec lemmas -/

lemma fromLE_le16 {x : Nat} (h : x ≤ 0xFFFF) : fromLE (le16 x) = x := by
  simp only [fromLE, le16, List.foldr]
  omega

lemma crc16_ibm_le (data : List Nat) : crc16_ibm data ≤ 0xFFFF :=
  Nat.and_le_right

lemma encode_frame_ok (f : SCKFrame)
    (h1 : f.frame_type = 'C' ∨ f.frame_type = 'S')
    (h2 : f.version ≤ 0xFFFF) (h3 : f.tid ≤ 0xFF) (h4 : f.command ≤ 0xFFFF)
    (h5 : f.payload.length ≤ 1020) :
    encode_frame f = .ok (encodedPacket f) := by
  have hlen : 1 ≤ 3 + f.payload.length ∧ 3 + f.payload.length ≤ 1023 := by omega
  simp only [encode_frame, h1, not_true_eq_false, if_neg, if_pos, h2, h3, h4,
    not_false_eq_true, ite_false, ite_true, not_not]
  simp only [h1, h2, h3, h4, hlen, not_true_eq_false, ite_false, if_neg,
    not_false_eq_true, and_self, ite_true]
  simp only [encodedPacket, crcInputOf, pySlice, le16, STX]
  norm_num [List.drop, List.take]

lemma encodedPacket_length (f : SCKFrame) :
    (encodedPacket f).length = 12 + f.payload.length := by
  simp [encodedPacket, le16]
  omega

lemma decode_encodedPacket (f : SCKFrame)
    (h1 : f.frame_type = 'C' ∨ f.frame_type = 'S')
    (h2 : f.version ≤ 0xFFFF) (h3 : f.tid ≤ 0xFF) (h4 : f.command ≤ 0xFFFF)
    (h5 : f.payload.length ≤ 1020) :
    decode_frame (encodedPacket f) = .ok f := by
  obtain ⟨v, t, ft, c, p⟩ := f
  simp only at h1 h2 h3 h4 h5
  set n := p.length with hn
  set K := crc16_ibm (crcInputOf ⟨v, t, ft, c, p⟩) with hK
  have hpkt : encodedPacket ⟨v, t, ft, c, p⟩ =
      2 :: (v % 256) :: (v / 256 % 256) :: ((3 + n) % 256) :: ((3 + n) / 256 % 256) ::
      t :: ft.toNat :: (c % 256) :: (c / 256 % 256) ::
      (p ++ [K % 256, K / 256 % 256, 3]) := by
    simp [encodedPacket, le16, STX, ETX]
  set pkt := encodedPacket ⟨v, t, ft, c, p⟩ with hpkt_def
  have hsplit : pkt =
      ([2, v % 256, v / 256 % 256, (3 + n) % 256, (3 + n) / 256 % 256,
        t, ft.toNat, c % 256, c / 256 % 256] ++ p) ++ [K % 256, K / 256 % 256, 3] := by
    simp [hpkt]
  have hfrontlen :
      ([2, v % 256, v / 256 % 256, (3 + n) % 256, (3 + n) / 256 % 256,
        t, ft.toNat, c % 256, c / 256 % 256] ++ p).length = 9 + n := by
    simp; omega
  have hplen : pkt.length = 12 + n := by
    rw [hsplit]; simp; omega
  have hb0 : byteAt pkt 0 = STX := by rw [hpkt]; simp [byteAt, STX]
  have hblast : byteAt pkt (pkt.length - 1) = ETX := by
    rw [hplen]
    have h12 : 12 + n - 1 = 11 + n := by omega
    rw [h12, hsplit, byteAt, List.getD_append_right _ _ _ _ (by rw [hfrontlen]; omega)]
    rw [hfrontlen]
    have h2idx : 11 + n - (9 + n) = 2 := by omega
    rw [h2idx]
    simp [ETX]
  have hver : pySlice pkt 1 3 = le16 v := by rw [hpkt]; simp [pySlice, le16]
  have hlenb : pySlice pkt 3 5 = le16 (3 + n) := by rw [hpkt]; simp [pySlice, le16]
  have htid : byteAt pkt 5 = t := by rw [hpkt]; simp [byteAt]
  have hft : byteAt pkt 6 = ft.toNat := by rw [hpkt]; simp [byteAt]
  have hcmd : pySlice pkt 7 9 = le16 c := by rw [hpkt]; simp [pySlice, le16]
  have hdrop9 : pkt.drop 9 = p ++ [K % 256, K / 256 % 256, 3] := by
    rw [hpkt]; simp
  have hpay : pySlice pkt 9 (9 + n) = p := by
    rw [pySlice, hdrop9]
    have : 9 + n - 9 = n := by omega
    rw [this, List.take_left' hn.symm]
  have hdropPay : pkt.drop (9 + n) = [K % 256, K / 256 % 256, 3] := by
    rw [hsplit, List.drop_left' hfrontlen]
  have hcrcb : pySlice pkt (9 + n) (11 + n) = le16 K := by
    rw [pySlice, hdropPay]
    have : 11 + n - (9 + n) = 2 := by omega
    rw [this]; simp [le16]
  have hcrcin : pySlice pkt 6 (9 + n) = [ft.toNat] ++ le16 c ++ p := by
    rw [pySlice]
    have h6 : pkt.drop 6 = ([ft.toNat, c % 256, c / 256 % 256] ++ p) ++
        [K % 256, K / 256 % 256, 3] := by rw [hpkt]; simp
    rw [h6]
    have h96 : 9 + n - 6 = 3 + n := by omega
    rw [h96, List.take_left' (by simp; omega)]
    simp [le16]
  have hchar : Char.ofNat ft.toNat = ft := by
    rcases h1 with h | h <;> rw [h] <;> decide
  have hKle : K ≤ 0xFFFF := hK ▸ crc16_ibm_le _
  have hinput : le16 (3 + n) ++ ([ft.toNat] ++ le16 c ++ p) =
      crcInputOf ⟨v, t, ft, c, p⟩ := by
    simp [crcInputOf, hn]
  simp only [decode_frame]
  rw [hb0, hblast, hver, hlenb, htid, hft, hcmd]
  rw [fromLE_le16 h2, fromLE_le16 h4,
    show fromLE (le16 (3 + n)) = 3 + n from fromLE_le16 (by omega)]
  have hsub : 3 + n - 3 = n := by omega
  rw [hsub]
  have h911 : 9 + n + 2 = 11 + n := by omega
  rw [h911, hpay, hcrcb, hcrcin, fromLE_le16 hKle, hchar]
  rw [if_neg (by omega : ¬ pkt.length < 11)]
  rw [if_neg (by simp [STX] : ¬ STX ≠ STX)]
  rw [if_neg (by simp [ETX] : ¬ ETX ≠ ETX)]
  rw [if_neg (by omega : ¬ 3 + n < 3)]
  rw [if_neg (by omega : ¬ 11 + n + 1 ≠ pkt.length)]
  rw [if_neg (by rw [hinput, ← hK]; simp : ¬ K ≠ crc16_ibm (le16 (3 + n) ++ ([ft.toNat] ++ le16 c ++ p)))]
  rw [if_neg (not_not_intro h1)]

lemma crcField_encodedPacket (f : SCKFrame) :
    crcFieldOf (encodedPacket f) = le16 (crc16_ibm (crcInputOf f)) := by
  obtain ⟨v, t, ft, c, p⟩ := f
  set n := p.length with hn
  set K := crc16_ibm (crcInputOf ⟨v, t, ft, c, p⟩) with hK
  have hsplit : encodedPacket ⟨v, t, ft, c, p⟩ =
      ([2, v % 256, v / 256 % 256, (3 + n) % 256, (3 + n) / 256 % 256,
        t, ft.toNat, c % 256, c / 256 % 256] ++ p) ++ [K % 256, K / 256 % 256, 3] := by
    simp [encodedPacket, le16, STX, ETX]
  rw [crcFieldOf, encodedPacket_length]
  simp only
  have e1 : 12 + n - 3 = 9 + n := by omega
  have e2 : 12 + n - 1 = 11 + n := by omega
  rw [e1, e2, pySlice, hsplit, List.drop_left' (by simp; omega)]
  have e3 : 11 + n - (9 + n) = 2 := by omega
  rw [e3]
  simp [le16]


/-! ## Claim theorems about the codec -/

/-- C2: for every valid frame (`frame_type` in C/S, `version` and `command`
fitting 16 bits, `tid` fitting 8 bits, payload length at most 1020 bytes),
decoding the encoding returns the original frame. -/
theorem sck_encode_decode_roundtrip (f : SCKFrame)
    (h1 : f.frame_type = 'C' ∨ f.frame_type = 'S')
    (h2 : f.version ≤ 0xFFFF) (h3 : f.tid ≤ 0xFF) (h4 : f.command ≤ 0xFFFF)
    (h5 : f.payload.length ≤ 1020) :
    (encode_frame f).bind decode_frame = Except.ok f := by
  rw [encode_frame_ok f h1 h2 h3 h4 h5]
  simpa [Except.bind] using decode_encodedPacket f h1 h2 h3 h4 h5

/-- Witness for C2 at a concrete frame. -/
theorem sck_encode_decode_roundtrip_witness :
    (encode_frame ⟨0x0420, 7, 'C', MONITOR_SET_CONFIG, [116, 61, 51]⟩).bind decode_frame
      = Except.ok ⟨0x0420, 7, 'C', MONITOR_SET_CONFIG, [116, 61, 51]⟩ :=
  sck_encode_decode_roundtrip _ (by decide) (by decide) (by decide) (by decide)
    (by decide)

/-- C9: the crc of an encoded frame is computed over exactly the two length
bytes followed by the type, command and payload bytes (`crcInputOf`), so two
valid frames differing only in `version` or `transaction_id` carry
byte-identical crc fields. -/
theorem crc_excludes_version_and_tid (f g : SCKFrame)
    (h1 : f.frame_type = 'C' ∨ f.frame_type = 'S')
    (h2 : f.version ≤ 0xFFFF) (h3 : f.tid ≤ 0xFF) (h4 : f.command ≤ 0xFFFF)
    (h5 : f.payload.length ≤ 1020)
    (g2 : g.version ≤ 0xFFFF) (g3 : g.tid ≤ 0xFF)
    (hft : g.frame_type = f.frame_type) (hc : g.command = f.command)
    (hp : g.payload = f.payload) :
    ∃ pf pg, encode_frame f = Except.ok pf ∧ encode_frame g = Except.ok pg ∧
      crcFieldOf pf = le16 (crc16_ibm (crcInputOf f)) ∧
      crcFieldOf pg = crcFieldOf pf := by
  refine ⟨encodedPacket f, encodedPacket g,
    encode_frame_ok f h1 h2 h3 h4 h5,
    encode_frame_ok g (by rw [hft]; exact h1) g2 g3 (by rw [hc]; exact h4)
      (by rw [hp]; exact h5),
    crcField_encodedPacket f, ?_⟩
  rw [crcField_encodedPacket f, crcField_encodedPacket g]
  have : crcInputOf g = crcInputOf f := by
    simp [crcInputOf, hft, hc, hp]
  rw [this]

/-! ## Control-loop lemmas -/

lemma runControlLogic_panic (cfg : ControlConfig) (io : IOState)
    (lastOff now : Rat) :
    (runControlLogic cfg io lastOff now).1.panic_alarm_on =
      (runControlLogic cfg io lastOff now).1.panic_button_pressed := by
  simp only [runControlLogic, setCompressor]
  split_ifs <;> rfl

lemma publishStatus_fields (s : ControllerState) :
    (publishStatus s).1.io = s.io ∧ (publishStatus s).1.config = s.config ∧
      (publishStatus s).1.dimensions = s.dimensions ∧
      (publishStatus s).1.last_compressor_off_s = s.last_compressor_off_s := by
  simp only [publishStatus]
  split <;> exact ⟨rfl, rfl, rfl, rfl⟩

/-- Witness for C9: two concrete frames differing in version and tid. -/
theorem crc_excludes_version_and_tid_witness :
    ∃ pf pg,
      encode_frame ⟨0x0420, 1, 'S', MONITOR_GET_STATUS, [79, 75]⟩ = Except.ok pf ∧
      encode_frame ⟨0x0001, 9, 'S', MONITOR_GET_STATUS, [79, 75]⟩ = Except.ok pg ∧
      crcFieldOf pf =
        le16 (crc16_ibm (crcInputOf ⟨0x0420, 1, 'S', MONITOR_GET_STATUS, [79, 75]⟩)) ∧
      crcFieldOf pg = crcFieldOf pf :=
  crc_excludes_version_and_tid _ _ (by decide) (by decide) (by decide) (by decide)
    (by decide) (by decide) (by decide) (by decide) (by decide) (by decide)


/-- C4: with `power_ok = false`, one control tick forces the compressor off,
records the off-timestamp only on an on→off transition, and performs no
thermostat evaluation (the result is fully determined independently of
`air_temp_c` and the thresholds); consequently a `step()` with no input
lines leaves the compressor off. -/
theorem power_loss_overrides_thermostat (cfg : ControlConfig) (io : IOState)
    (lastOff now : Rat) (h : io.power_ok = false) :
    powerLossSpec io lastOff now (runControlLogic cfg io lastOff now) ∧
    ∀ (dims : WalkInDimensionsFt) (cache : Option PyStr)
      (r : ControllerState × List PyStr × List PyStr),
      step ⟨cfg, dims, io, lastOff, cache⟩ none none now = Except.ok r →
      r.1.io.compressor_on = false := by
  have hmain : powerLossSpec io lastOff now (runControlLogic cfg io lastOff now) := by
    simp only [powerLossSpec, runControlLogic, setCompressor, h]
    constructor
    · simp
    · split <;> split <;> simp_all
  refine ⟨hmain, ?_⟩
  intro dims cache r hr
  simp only [step, processMonitorUart, processIoUart] at hr
  injection hr with hr1
  rw [← hr1]
  simp only
  rw [(publishStatus_fields _).1]
  simp only
  rw [hmain.1]

/-- Witness for C4 at a concrete powered-off state with high temperature. -/
theorem power_loss_overrides_thermostat_witness :
    powerLossSpec { defaultIOState with power_ok := false, air_temp_c := 20 } 0 50
      (runControlLogic defaultConfig
        { defaultIOState with power_ok := false, air_temp_c := 20 } 0 50) ∧
    ∀ (dims : WalkInDimensionsFt) (cache : Option PyStr)
      (r : ControllerState × List PyStr × List PyStr),
      step ⟨defaultConfig, dims, { defaultIOState with power_ok := false, air_temp_c := 20 },
        0, cache⟩ none none 50 = Except.ok r →
      r.1.io.compressor_on = false :=
  power_loss_overrides_thermostat defaultConfig _ 0 50 (by decide)

/-- C5: with `power_ok = true`, the control tick follows the ordered
hysteresis clauses: compressor turned on exactly when the temperature is at
or above the upper threshold and the minimum-off time has elapsed; turned
off (off-timestamp recorded only on transition) when below the upper
threshold and at or below the lower one; otherwise unchanged. -/
theorem thermostat_follows_hysteresis (cfg : ControlConfig) (io : IOState)
    (lastOff now : Rat) (h : io.power_ok = true) :
    thermostatSpec cfg io lastOff now (runControlLogic cfg io lastOff now) := by
  simp only [thermostatSpec, runControlLogic, setCompressor, h]
  split_ifs <;> simp_all

/-- Witness for C5 at a concrete overtemperature state with the minimum-off
time elapsed. -/
theorem thermostat_follows_hysteresis_witness :
    thermostatSpec defaultConfig { defaultIOState with air_temp_c := 15 / 2 } 0 200
      (runControlLogic defaultConfig { defaultIOState with air_temp_c := 15 / 2 } 0 200) :=
  thermostat_follows_hysteresis defaultConfig _ 0 200 (by decide)

/-- C6: after every successful `step()` the panic alarm output equals the
panic button input — the control loop mirrors it unconditionally after both
channels are processed, and status publication does not touch IO state. -/
theorem panic_alarm_mirrors_button (s : ControllerState)
    (mLine ioLine : Option PyStr) (now : Rat)
    (r : ControllerState × List PyStr × List PyStr)
    (h : step s mLine ioLine now = Except.ok r) :
    r.1.io.panic_alarm_on = r.1.io.panic_button_pressed := by
  unfold step at h
  cases hm : processMonitorUart s mLine with
  | error e => rw [hm] at h; exact absurd h (by simp)
  | ok p1 =>
    obtain ⟨s1, mOut⟩ := p1
    rw [hm] at h
    simp only at h
    cases hio : processIoUart s1 ioLine with
    | error e => rw [hio] at h; exact absurd h (by simp)
    | ok p2 =>
      obtain ⟨s2, iOut⟩ := p2
      rw [hio] at h
      simp only at h
      injection h with h1
      rw [← h1]
      simp only
      rw [(publishStatus_fields _).1]
      exact runControlLogic_panic _ _ _ _

/-- Witness for C6: a concrete successful step. -/
theorem panic_alarm_mirrors_button_witness :
    ∃ r, step (initController defaultConfig defaultDimensions 0) none none 1 =
        Except.ok r ∧
      r.1.io.panic_alarm_on = r.1.io.panic_button_pressed := by
  cases hr : step (initController defaultConfig defaultDimensions 0) none none 1 with
  | error e =>
    have hok : (step (initController defaultConfig defaultDimensions 0)
        none none 1).isOk = true := by decide
    rw [hr] at hok
    simp [Except.isOk, Except.toBool] at hok
  | ok r => exact ⟨r, rfl, panic_alarm_mirrors_button _ _ _ _ r hr⟩

lemma pyStartsWith_append (p rest : PyStr) : pyStartsWith (p ++ rest) p = true := by
  induction p with
  | nil => simp [pyStartsWith]
  | cons c cs ih => simp [pyStartsWith, ih]

lemma publishStatus_none (s : ControllerState) (h : s.lastPublishedStatus = none) :
    publishStatus s =
      ({s with lastPublishedStatus := some (statusLineOf s)}, [statusLineOf s]) := by
  simp [publishStatus, h]

lemma publishStatus_hit (s : ControllerState)
    (h : s.lastPublishedStatus = some (statusLineOf s)) :
    publishStatus s = (s, []) := by
  simp [publishStatus, h]

lemma publishStatus_cache (s : ControllerState) :
    (publishStatus s).1.lastPublishedStatus = some (statusLineOf s) := by
  simp only [publishStatus]
  split <;> simp_all

/-- C7: a line that decodes as a Status frame, or reads as plain text with a
response prefix (ACK/ERR/STATUS/CONFIG/IO), is discarded as loopback on
either channel: no reply is written and the controller state (config,
dimensions, IO state, cache, timestamp) is untouched. -/
theorem loopback_lines_suppressed (s : ControllerState) (line : PyStr)
    (h : (∃ f, parseSckFrame line = some f ∧ f.frame_type = 'S') ∨
      (parseSckFrame line = none ∧ isProtocolResponse line = true)) :
    processMonitorUart s (some line) = Except.ok (s, []) ∧
    processIoUart s (some line) = Except.ok (s, []) := by
  by_cases hl : line = []
  · simp [processMonitorUart, processIoUart, hl]
  · rcases h with ⟨f, hf, hS⟩ | ⟨hn, hp⟩
    · simp [processMonitorUart, processIoUart, hl, hf, hS]
    · simp [processMonitorUart, processIoUart, hl, hn, hp]

/-- Witness for C7: a concrete ACK text line is suppressed on both channels. -/
theorem loopback_lines_suppressed_witness :
    processMonitorUart (initController defaultConfig defaultDimensions 0)
        (some "ACK target_temp_c=3.5".toList) =
      Except.ok (initController defaultConfig defaultDimensions 0, []) ∧
    processIoUart (initController defaultConfig defaultDimensions 0)
        (some "ACK target_temp_c=3.5".toList) =
      Except.ok (initController defaultConfig defaultDimensions 0, []) :=
  loopback_lines_suppressed _ _ (Or.inr ⟨by decide, by decide⟩)

/-- C10: a freshly constructed controller has an empty status cache, so its
first `step()` with no queued input writes exactly one unsolicited STATUS
line, on the monitor channel only. -/
theorem first_step_always_publishes (cfg : ControlConfig)
    (dims : WalkInDimensionsFt) (t0 now : Rat) :
    ∃ (r : ControllerState × List PyStr × List PyStr) (l : PyStr),
      step (initController cfg dims t0) none none now = Except.ok r ∧
      r.2.1 = [l] ∧ pyStartsWith l "STATUS ".toList = true ∧ r.2.2 = [] := by
  simp only [step, processMonitorUart, processIoUart, initController]
  rw [publishStatus_none _ rfl]
  refine ⟨_, _, rfl, rfl, ?_, rfl⟩
  simp only [statusLineOf]
  exact pyStartsWith_append _ _

lemma step_no_input (s : ControllerState) (now : Rat) :
    step s none none now =
      Except.ok ((publishStatus (postControl s now)).1,
        (publishStatus (postControl s now)).2, []) := by
  simp [step, processMonitorUart, processIoUart, postControl]

lemma statusLineOf_proj (s t : ControllerState) (hc : s.config = t.config)
    (hd : s.dimensions = t.dimensions) (hio : s.io = t.io) :
    statusLineOf s = statusLineOf t := by
  simp [statusLineOf, statusKVs, configKVs, ioKVs, volume_ft3, hc, hd, hio]

/-- C8: unsolicited status publication writes the formatted status line only
when it differs from the cached last-published string and updates the cache
on write; two consecutive no-input `step()`s whose second leaves the IO state
unchanged write nothing unsolicited on the second; explicit GET STATUS /
GET CONFIG / GET IO requests always get exactly one reply, cache or not. -/
theorem status_publication_dedup :
    (∀ s : ControllerState, s.lastPublishedStatus = some (statusLineOf s) →
        publishStatus s = (s, [])) ∧
    (∀ s : ControllerState, s.lastPublishedStatus ≠ some (statusLineOf s) →
        publishStatus s =
          ({s with lastPublishedStatus := some (statusLineOf s)}, [statusLineOf s])) ∧
    (∀ (s : ControllerState) (t1 t2 : Rat)
        (r1 r2 : ControllerState × List PyStr × List PyStr),
        step s none none t1 = Except.ok r1 →
        step r1.1 none none t2 = Except.ok r2 →
        r2.1.io = r1.1.io → r2.2.1 = []) ∧
    (∀ s : ControllerState,
        processMonitorUart s (some "GET STATUS".toList) =
          Except.ok (s, ["STATUS ".toList ++ formatKeyValues (statusKVs s)]) ∧
        processMonitorUart s (some "GET CONFIG".toList) =
          Except.ok (s, ["CONFIG ".toList ++ formatKeyValues (configKVs s.config)]) ∧
        processIoUart s (some "GET IO".toList) =
          Except.ok (s, ["IO ".toList ++ formatKeyValues (ioKVs s.io)])) := by
  refine ⟨fun s h => publishStatus_hit s h, fun s h => by simp [publishStatus, h], ?_, ?_⟩
  · intro s t1 t2 r1 r2 h1 h2 hio
    rw [step_no_input] at h1 h2
    injection h1 with e1
    injection h2 with e2
    have hr1cache : r1.1.lastPublishedStatus =
        some (statusLineOf (postControl s t1)) := by
      rw [← e1]; exact publishStatus_cache _
    have hline1 : statusLineOf r1.1 = statusLineOf (postControl s t1) := by
      apply statusLineOf_proj
      · rw [← e1]; exact ((publishStatus_fields _).2.1)
      · rw [← e1]; exact ((publishStatus_fields _).2.2.1)
      · rw [← e1]; exact ((publishStatus_fields _).1)
    have hioP2 : (postControl r1.1 t2).io = r1.1.io := by
      have : r2.1.io = (postControl r1.1 t2).io := by
        rw [← e2]; exact (publishStatus_fields _).1
      rw [← this, hio]
    have hline2 : statusLineOf (postControl r1.1 t2) = statusLineOf r1.1 :=
      statusLineOf_proj _ _ rfl rfl hioP2
    have hcacheP2 : (postControl r1.1 t2).lastPublishedStatus =
        some (statusLineOf (postControl r1.1 t2)) := by
      show r1.1.lastPublishedStatus = _
      rw [hr1cache, hline2, hline1]
    rw [← e2]
    simp only
    rw [publishStatus_hit _ hcacheP2]
  · intro s
    have hp1 : parseSckFrame ('G' :: 'E' :: 'T' :: ' ' :: 'S' :: 'T' :: 'A' :: 'T' :: 'U' :: 'S' :: [])
        = none := by decide
    have hp2 : parseSckFrame ('G' :: 'E' :: 'T' :: ' ' :: 'C' :: 'O' :: 'N' :: 'F' :: 'I' :: 'G' :: [])
        = none := by decide
    have hp3 : parseSckFrame ('G' :: 'E' :: 'T' :: ' ' :: 'I' :: 'O' :: []) = none := by decide
    refine ⟨?_, ?_, ?_⟩
    · simp [processMonitorUart, dispatchMonitorText, hp1]
      decide
    · simp [processMonitorUart, dispatchMonitorText, hp2]
      decide
    · simp [processIoUart, dispatchIoText, hp3]
      decide

/-- Witness for C8: with the cache already equal to the current status line,
publication writes nothing. -/
theorem status_publication_dedup_witness :
    publishStatus
        {initController defaultConfig defaultDimensions 0 with
          lastPublishedStatus :=
            some (statusLineOf (initController defaultConfig defaultDimensions 0))} =
      ({initController defaultConfig defaultDimensions 0 with
          lastPublishedStatus :=
            some (statusLineOf (initController defaultConfig defaultDimensions 0))},
        []) :=
  status_publication_dedup.1 _ rfl

/-! ## C1: framed command replies -/

lemma build_status_line_shape (cmd : Nat) (body : PyStr) (tid : Nat)
    (reply : PyStr) (h : build_status_line cmd body tid = Except.ok reply) :
    ∃ pkt, encode_frame ⟨DEFAULT_VERSION, tid, 'S', cmd, utf8Encode body⟩ =
        Except.ok pkt ∧ reply = format_hex_line pkt := by
  unfold build_status_line at h
  cases he : encode_frame ⟨DEFAULT_VERSION, tid, 'S', cmd, utf8Encode body⟩ with
  | error e => rw [he] at h; simp [Except.map] at h
  | ok pkt =>
    rw [he] at h
    simp [Except.map] at h
    exact ⟨pkt, rfl, h.symm⟩

lemma map_reply_ok (cmd : Nat) (B : PyStr) (tid : Nat) (st s2 : ControllerState)
    (outs : List PyStr)
    (h : (build_status_line cmd B tid).map (fun reply => (st, [reply])) =
      Except.ok (s2, outs)) :
    ∃ pkt, encode_frame ⟨DEFAULT_VERSION, tid, 'S', cmd, utf8Encode B⟩ =
        Except.ok pkt ∧ outs = [format_hex_line pkt] := by
  cases hb : build_status_line cmd B tid with
  | error e => rw [hb] at h; simp [Except.map] at h
  | ok reply =>
    rw [hb] at h
    simp only [Except.map, Except.ok.injEq, Prod.mk.injEq] at h
    obtain ⟨pkt, he, hr⟩ := build_status_line_shape _ _ _ _ hb
    exact ⟨pkt, he, by rw [← h.2, hr]⟩

lemma handleMonitorSck_reply (s : ControllerState) (cmd : Nat)
    (payload : List Nat) (tid : Nat) (s2 : ControllerState) (outs : List PyStr)
    (h : handleMonitorSck s cmd payload tid = Except.ok (s2, outs)) :
    ∃ body pkt, encode_frame ⟨DEFAULT_VERSION, tid, 'S', cmd, utf8Encode body⟩ =
        Except.ok pkt ∧ outs = [format_hex_line pkt] := by
  simp only [handleMonitorSck] at h
  split_ifs at h with h1 h2 h3 h4
  · cases hc : setConfigField s.config (splitOnce (utf8Decode payload) '=').1
        (splitOnce (utf8Decode payload) '=').2 with
    | error e => rw [hc] at h; simp at h
    | ok p =>
      obtain ⟨c2, rend⟩ := p
      rw [hc] at h
      simp only at h
      cases hb : build_status_line cmd
          ("ACK ".toList ++ (splitOnce (utf8Decode payload) '=').1 ++ '=' :: rend) tid with
      | error e => rw [hb] at h; simp at h
      | ok reply =>
        rw [hb] at h
        simp only [Except.ok.injEq, Prod.mk.injEq] at h
        obtain ⟨pkt, he, hr⟩ := build_status_line_shape _ _ _ _ hb
        exact ⟨_, pkt, he, by rw [← h.2, hr]⟩
  · exact ⟨_, map_reply_ok _ _ _ _ _ _ h⟩
  · exact ⟨_, map_reply_ok _ _ _ _ _ _ h⟩
  · exact ⟨_, map_reply_ok _ _ _ _ _ _ h⟩
  · exact ⟨_, map_reply_ok _ _ _ _ _ _ h⟩
  · exact ⟨_, map_reply_ok _ _ _ _ _ _ h⟩

lemma handleIoSck_reply (s : ControllerState) (cmd : Nat)
    (payload : List Nat) (tid : Nat) (s2 : ControllerState) (outs : List PyStr)
    (h : handleIoSck s cmd payload tid = Except.ok (s2, outs)) :
    ∃ body pkt, encode_frame ⟨DEFAULT_VERSION, tid, 'S', cmd, utf8Encode body⟩ =
        Except.ok pkt ∧ outs = [format_hex_line pkt] := by
  simp only [handleIoSck] at h
  split_ifs at h with h1 h2 h3 h4 h5
  · cases hc : parseRat? (splitOnce (utf8Decode payload) '=').2 with
    | none => rw [hc] at h; simp at h
    | some v =>
      rw [hc] at h
      simp only at h
      cases hb : build_status_line cmd ("ACK air_temp_c=".toList ++ renderRat v) tid with
      | error e => rw [hb] at h; simp at h
      | ok reply =>
        rw [hb] at h
        simp only [Except.ok.injEq, Prod.mk.injEq] at h
        obtain ⟨pkt, he, hr⟩ := build_status_line_shape _ _ _ _ hb
        exact ⟨_, pkt, he, by rw [← h.2, hr]⟩
  · exact ⟨_, map_reply_ok _ _ _ _ _ _ h⟩
  · cases hc : parseInt? (splitOnce (utf8Decode payload) '=').2 with
    | none => rw [hc] at h; simp at h
    | some v =>
      rw [hc] at h
      simp only at h
      cases hb : build_status_line cmd
          ("ACK ".toList ++ (splitOnce (utf8Decode payload) '=').1 ++
            '=' :: formatBool (v ≠ 0)) tid with
      | error e => rw [hb] at h; simp at h
      | ok reply =>
        rw [hb] at h
        simp only [Except.ok.injEq, Prod.mk.injEq] at h
        obtain ⟨pkt, he, hr⟩ := build_status_line_shape _ _ _ _ hb
        exact ⟨_, pkt, he, by rw [← h.2, hr]⟩
  · exact ⟨_, map_reply_ok _ _ _ _ _ _ h⟩
  · exact ⟨_, map_reply_ok _ _ _ _ _ _ h⟩
  · exact ⟨_, map_reply_ok _ _ _ _ _ _ h⟩
  · exact ⟨_, map_reply_ok _ _ _ _ _ _ h⟩
/-- C1 (amended): the reply to a framed Command on either channel is a single
Status frame carrying the same command code and the same transaction id as
the incoming frame but the controller's fixed DEFAULT_VERSION (0x0420),
whatever the incoming frame's version was. -/
theorem framed_command_reply_fixed_version (s : ControllerState) (line : PyStr)
    (f : SCKFrame) (hf : parseSckFrame line = some f) (hC : f.frame_type = 'C') :
    (∀ r, processMonitorUart s (some line) = Except.ok r →
      ∃ body pkt,
        encode_frame ⟨DEFAULT_VERSION, f.tid, 'S', f.command, utf8Encode body⟩ =
          Except.ok pkt ∧ r.2 = [format_hex_line pkt]) ∧
    (∀ r, processIoUart s (some line) = Except.ok r →
      ∃ body pkt,
        encode_frame ⟨DEFAULT_VERSION, f.tid, 'S', f.command, utf8Encode body⟩ =
          Except.ok pkt ∧ r.2 = [format_hex_line pkt]) := by
  have hl : line ≠ [] := by
    intro he
    rw [he, show parseSckFrame ([] : PyStr) = none from by decide] at hf
    cases hf
  have hS : ¬ f.frame_type = 'S' := by rw [hC]; decide
  constructor
  · intro r h
    simp only [processMonitorUart] at h
    rw [if_neg hl, hf] at h
    simp only [hS, if_false, ite_false] at h
    obtain ⟨s2, outs⟩ := r
    exact handleMonitorSck_reply _ _ _ _ _ _ h
  · intro r h
    simp only [processIoUart] at h
    rw [if_neg hl, hf] at h
    simp only [hS, if_false, ite_false] at h
    obtain ⟨s2, outs⟩ := r
    exact handleIoSck_reply _ _ _ _ _ _ h

set_option maxRecDepth 1000000 in
/-- C1 counterexample: a Command frame with version 0 gets a Status reply
whose version is DEFAULT_VERSION = 0x0420, not the incoming version 0 (the
transaction id 5 is echoed). -/
theorem framed_reply_version_counterexample :
    parseSckFrame c1CommandLine = some ⟨0, 5, 'C', 0x9999, [120]⟩ ∧
    Except.map (fun r => (r.2.map fun reply =>
        (parseSckFrame reply).map fun g => (g.version, g.tid, g.frame_type)))
      (processMonitorUart (initController defaultConfig defaultDimensions 0)
        (some c1CommandLine)) =
      Except.ok [some (DEFAULT_VERSION, 5, 'S')] ∧
    DEFAULT_VERSION ≠ 0 := by
  refine ⟨by decide, by rfl, by decide⟩

set_option maxRecDepth 1000000 in
/-- Witness for the amended C1 theorem at the concrete command line. -/
theorem framed_command_reply_fixed_version_witness :
    ∃ r, processMonitorUart (initController defaultConfig defaultDimensions 0)
        (some c1CommandLine) = Except.ok r ∧
      ∃ body pkt,
        encode_frame ⟨DEFAULT_VERSION, 5, 'S', 0x9999, utf8Encode body⟩ =
          Except.ok pkt ∧ r.2 = [format_hex_line pkt] := by
  cases hr : processMonitorUart (initController defaultConfig defaultDimensions 0)
      (some c1CommandLine) with
  | error e =>
    have hok : (processMonitorUart (initController defaultConfig defaultDimensions 0)
        (some c1CommandLine)).isOk = true := by decide
    rw [hr] at hok
    simp [Except.isOk, Except.toBool] at hok
  | ok r =>
    exact ⟨r, rfl,
      (framed_command_reply_fixed_version _ _ ⟨0, 5, 'C', 0x9999, [120]⟩
        (by decide) rfl).1 r hr⟩

/-! ## C3: which inputs can raise -/

lemma hexBytes_bounds (tokens : List PyStr) (packet : List Nat)
    (h : hexBytes? tokens = some packet) : ∀ b ∈ packet, b ≤ 255 := by
  induction tokens generalizing packet with
  | nil =>
    simp only [hexBytes?] at h
    injection h with h
    subst h
    intro b hb
    cases hb
  | cons t ts ih =>
    simp only [hexBytes?] at h
    cases hv : (parseHexToken t).bind fun v => if v ≤ 255 then some v else none with
    | none => rw [hv] at h; cases h
    | some v =>
      rw [hv] at h
      cases hrest : hexBytes? ts with
      | none => rw [hrest] at h; cases h
      | some rest =>
        rw [hrest] at h
        simp only [Option.map, Option.some.injEq] at h
        subst h
        have hv255 : v ≤ 255 := by
          cases hp : parseHexToken t with
          | none => rw [hp] at hv; cases hv
          | some w =>
            rw [hp] at hv
            simp only [Option.bind] at hv
            split at hv
            · injection hv with hv; omega
            · cases hv
        intro b hb
        cases hb with
        | head => exact hv255
        | tail _ hb => exact ih rest hrest b hb

lemma byteAt_le (l : List Nat) (i : Nat) (hb : ∀ b ∈ l, b ≤ 255) :
    byteAt l i ≤ 255 := by
  rw [byteAt, List.getD_eq_getElem?_getD]
  cases he : l[i]? with
  | none => simp
  | some v => simpa using hb v (List.getElem?_mem he)

lemma fromLE_le_two (l : List Nat) (hlen : l.length ≤ 2)
    (hb : ∀ b ∈ l, b ≤ 255) : fromLE l ≤ 65535 := by
  match l, hlen with
  | [], _ => simp [fromLE]
  | [a], _ =>
    have := hb a (by simp)
    simp only [fromLE, List.foldr]
    omega
  | [a, b], _ =>
    have ha := hb a (by simp)
    have hbb := hb b (by simp)
    simp only [fromLE, List.foldr]
    omega

lemma decode_frame_tid_command (p : List Nat) (f : SCKFrame)
    (h : decode_frame p = Except.ok f) :
    f.tid = byteAt p 5 ∧ f.command = fromLE (pySlice p 7 9) := by
  simp only [decode_frame] at h
  split_ifs at h
  cases h
  exact ⟨rfl, rfl⟩

lemma parseSckFrame_bounds (line : PyStr) (f : SCKFrame)
    (h : parseSckFrame line = some f) : f.tid ≤ 255 ∧ f.command ≤ 65535 := by
  rw [parseSckFrame] at h
  cases hp : parse_hex_line line with
  | error e => rw [hp] at h; cases h
  | ok r =>
    rw [hp] at h
    simp only at h
    subst h
    simp only [parse_hex_line] at hp
    split at hp
    · simp at hp
    · split at hp
      · cases hp
      · split at hp
        · cases hp
        next packet hx =>
          cases hd : decode_frame packet with
          | error e => rw [hd] at hp; cases hp
          | ok g =>
            rw [hd] at hp
            simp only [Except.map, Except.ok.injEq, Option.some.injEq] at hp
            subst hp
            have hbounds := hexBytes_bounds _ _ hx
            obtain ⟨ht, hc⟩ := decode_frame_tid_command _ _ hd
            refine ⟨ht ▸ byteAt_le _ _ hbounds, hc ▸ fromLE_le_two _ ?_ ?_⟩
            · simp only [pySlice]
              calc ((packet.drop 7).take (9 - 7)).length ≤ 9 - 7 :=
                    le_of_le_of_eq (List.length_take_le _ _) rfl
                _ ≤ 2 := by omega
            · intro b hmem
              exact hbounds b (List.mem_of_mem_drop (List.mem_of_mem_take hmem))

lemma build_status_line_error (cmd : Nat) (B : PyStr) (tid : Nat) (e : String)
    (htid : tid ≤ 255) (hcmd : cmd ≤ 65535)
    (h : build_status_line cmd B tid = Except.error e) :
    e = "Length must be in range 1..1023" := by
  simp only [build_status_line, encode_frame] at h
  rw [if_neg (by simp), if_neg (by simp [DEFAULT_VERSION]),
    if_neg (by simpa using htid), if_neg (by simpa using hcmd)] at h
  split_ifs at h with hlen
  · simp [Except.map] at h
  · simp only [Except.map] at h
    injection h with h
    exact h.symm

lemma map_reply_error (cmd : Nat) (B : PyStr) (tid : Nat)
    (st : ControllerState) (e : String) (htid : tid ≤ 255) (hcmd : cmd ≤ 65535)
    (h : (build_status_line cmd B tid).map
      (fun reply => (st, [reply])) = Except.error e) :
    e = lenErr := by
  cases hb : build_status_line cmd B tid with
  | error m =>
    rw [hb] at h
    simp only [Except.map] at h
    injection h with h
    rw [← h]
    exact build_status_line_error _ _ _ _ htid hcmd hb
  | ok reply => rw [hb] at h; simp [Except.map] at h

/-- C3 counterexample: the claim says no input line can make `step()` raise,
but `SET compressor_min_off_s=abc` on the monitor channel raises an uncaught
coercion `ValueError` (as spec §7 itself concedes for `ValueParseFailure`). -/
theorem step_crashes_on_bad_coercion :
    step (initController defaultConfig defaultDimensions 0)
        (some "SET compressor_min_off_s=abc".toList) none 0 =
      Except.error "ValueError: invalid literal for int" := by
  rfl

lemma decode_frame_type (p : List Nat) (f : SCKFrame)
    (h : decode_frame p = Except.ok f) :
    f.frame_type = 'C' ∨ f.frame_type = 'S' := by
  simp only [decode_frame] at h
  split_ifs at h with h1 h2 h3 h4 h5 h6 h7
  cases h
  exact h7

lemma parseSckFrame_type (line : PyStr) (f : SCKFrame)
    (h : parseSckFrame line = some f) :
    f.frame_type = 'C' ∨ f.frame_type = 'S' := by
  rw [parseSckFrame] at h
  cases hp : parse_hex_line line with
  | error e => rw [hp] at h; cases h
  | ok r =>
    rw [hp] at h
    simp only at h
    subst h
    simp only [parse_hex_line] at hp
    split at hp
    · simp at hp
    · split at hp
      · cases hp
      · split at hp
        · cases hp
        next packet hx =>
          cases hd : decode_frame packet with
          | error e => rw [hd] at hp; cases hp
          | ok g =>
            rw [hd] at hp
            simp only [Except.map, Except.ok.injEq, Option.some.injEq] at hp
            subst hp
            exact decode_frame_type _ _ hd

lemma handleMonitorSck_error_form (s : ControllerState) (cmd : Nat)
    (payload : List Nat) (tid : Nat) (e : String)
    (htid : tid ≤ 255) (hcmd : cmd ≤ 65535)
    (h : handleMonitorSck s cmd payload tid = Except.error e) :
    (cmd = MONITOR_SET_CONFIG ∧ ((utf8Decode payload).contains '=') = true) ∨
      e = lenErr := by
  simp only [handleMonitorSck] at h
  split_ifs at h <;>
    first
    | exact Or.inr (map_reply_error _ _ _ _ _ htid hcmd h)
    | tauto

lemma handleIoSck_error_form (s : ControllerState) (cmd : Nat)
    (payload : List Nat) (tid : Nat) (e : String)
    (htid : tid ≤ 255) (hcmd : cmd ≤ 65535)
    (h : handleIoSck s cmd payload tid = Except.error e) :
    ((cmd = IO_SET_SENSOR ∨ cmd = IO_SET_INPUT) ∧
      ((utf8Decode payload).contains '=') = true) ∨ e = lenErr := by
  simp only [handleIoSck] at h
  split_ifs at h <;>
    first
    | exact Or.inr (map_reply_error _ _ _ _ _ htid hcmd h)
    | tauto

lemma dispatchMonitorText_error_form (s : ControllerState) (line : PyStr)
    (e : String) (h : dispatchMonitorText s line = Except.error e) :
    (pyStartsWith line "SET ".toList && line.contains '=') = true := by
  simp only [dispatchMonitorText] at h
  split_ifs at h
  simp only [Bool.and_eq_true]
  tauto

lemma dispatchIoText_error_form (s : ControllerState) (line : PyStr)
    (e : String) (h : dispatchIoText s line = Except.error e) :
    (pyStartsWith line "SET_SENSOR ".toList && line.contains '=') = true ∨
    (pyStartsWith line "SET_INPUT ".toList && line.contains '=') = true := by
  simp only [dispatchIoText] at h
  split_ifs at h <;> simp only [Bool.and_eq_true] <;> tauto

lemma processMonitorUart_error_form (s : ControllerState) (l : PyStr)
    (e : String) (h : processMonitorUart s (some l) = Except.error e) :
    monitorSetForm l ∨ e = lenErr := by
  simp only [processMonitorUart] at h
  split_ifs at h <;>
    cases hf : parseSckFrame l with
    | some f =>
      rw [hf] at h
      simp only at h
      split_ifs at h with hS
      obtain ⟨ht, hc⟩ := parseSckFrame_bounds _ _ hf
      rcases handleMonitorSck_error_form _ _ _ _ _ ht hc h with ⟨hcmd, heq⟩ | hlen
      · refine Or.inl (Or.inr ⟨f, hf, ?_, hcmd, heq⟩)
        rcases parseSckFrame_type _ _ hf with hC | hS2
        · exact hC
        · exact absurd hS2 hS
      · exact Or.inr hlen
    | none =>
      rw [hf] at h
      simp only at h
      first
      | cases h
      | exact Or.inl (Or.inl (dispatchMonitorText_error_form _ _ _ h))

lemma processIoUart_error_form (s : ControllerState) (l : PyStr)
    (e : String) (h : processIoUart s (some l) = Except.error e) :
    ioSetForm l ∨ e = lenErr := by
  simp only [processIoUart] at h
  split_ifs at h <;>
    cases hf : parseSckFrame l with
    | some f =>
      rw [hf] at h
      simp only at h
      split_ifs at h with hS
      obtain ⟨ht, hc⟩ := parseSckFrame_bounds _ _ hf
      rcases handleIoSck_error_form _ _ _ _ _ ht hc h with ⟨hcmd, heq⟩ | hlen
      · refine Or.inl (Or.inr (Or.inr ⟨f, hf, ?_, hcmd, heq⟩))
        rcases parseSckFrame_type _ _ hf with hC | hS2
        · exact hC
        · exact absurd hS2 hS
      · exact Or.inr hlen
    | none =>
      rw [hf] at h
      simp only at h
      first
      | cases h
      | exact (dispatchIoText_error_form _ _ _ h).elim
          (fun hx => Or.inl (Or.inl hx)) (fun hx => Or.inl (Or.inr (Or.inl hx)))

/-- C3 (amended): a `step()` with no queued input never raises, and an
uncaught exception can escape `step()` only when the processed line is a
value-setting request — plain text `SET` / `SET_SENSOR` / `SET_INPUT` with
an equals sign, or the framed MONITOR_SET_CONFIG / IO_SET_SENSOR /
IO_SET_INPUT commands with an equals sign in the payload — or when a framed
reply's payload exceeds the 1020-byte frame limit (`SCKError`).  Every
other input produces a reportable reply. -/
theorem step_raises_only_from_value_setting_lines :
    (∀ (s : ControllerState) (now : Rat), (step s none none now).isOk = true) ∧
    (∀ (s : ControllerState) (mLine ioLine : Option PyStr) (now : Rat)
      (e : String), step s mLine ioLine now = Except.error e →
      (∃ l, mLine = some l ∧ monitorSetForm l) ∨
      (∃ l, ioLine = some l ∧ ioSetForm l) ∨ e = lenErr) := by
  constructor
  · intro s now
    rw [step_no_input]
    rfl
  · intro s mLine ioLine now e h
    simp only [step] at h
    cases hm : processMonitorUart s mLine with
    | error m =>
      rw [hm] at h
      injection h with h
      subst h
      cases mLine with
      | none => cases hm
      | some l =>
        rcases processMonitorUart_error_form s l _ hm with hform | hlen
        · exact Or.inl ⟨l, rfl, hform⟩
        · exact Or.inr (Or.inr hlen)
    | ok p1 =>
      obtain ⟨s1, mOut⟩ := p1
      rw [hm] at h
      simp only at h
      cases hio : processIoUart s1 ioLine with
      | error m =>
        rw [hio] at h
        injection h with h
        subst h
        cases ioLine with
        | none => cases hio
        | some l =>
          rcases processIoUart_error_form s1 l _ hio with hform | hlen
          · exact Or.inr (Or.inl ⟨l, rfl, hform⟩)
          · exact Or.inr (Or.inr hlen)
      | ok p2 =>
        obtain ⟨s2, iOut⟩ := p2
        rw [hio] at h
        simp only at h
        cases h

/-- Witness for the amended C3 theorem at the concrete crashing input. -/
theorem step_raises_only_from_value_setting_lines_witness :
    step (initController defaultConfig defaultDimensions 0)
        (some "SET compressor_min_off_s=abc".toList) none 0 =
      Except.error intErr ∧
    ((∃ l, (some "SET compressor_min_off_s=abc".toList : Option PyStr) = some l ∧
        monitorSetForm l) ∨
     (∃ l, (none : Option PyStr) = some l ∧ ioSetForm l) ∨ intErr = lenErr) :=
  ⟨by rfl,
    step_raises_only_from_value_setting_lines.2
      (initController defaultConfig defaultDimensions 0)
      (some "SET compressor_min_off_s=abc".toList) none 0 intErr (by rfl)⟩

end Refrigeration
